import Mathlib

/-!
Verification of the tensor-engine core (`src/matrix.rs`, `src/ops/mod.rs`,
`src/ops/array/mod.rs`, `src/analyser/types.rs`) against its specification.

The Rust code is shallowly embedded: tensors (`Matrix`) are shapes plus flat
row-major element buffers, fallible Rust functions return `TfResult` (with
`err` for `Err(...)` returns and `crash` for panics/unwraps/out-of-bounds
aborts), and `i32`/`usize` arithmetic is modelled on `Int`/`Nat` with explicit
wrap-around where the machine width matters.
-/

namespace TfDeploy

/-- Reinterpretation of an integer as a 32-bit two's-complement value,
modelling Rust `as i32` casts and wrapping `i32` arithmetic. -/
def wrap32 (x : Int) : Int := (x + 2 ^ 31) % 2 ^ 32 - 2 ^ 31

/-- Rust `as usize` cast of an `i32`/`isize` value (64-bit target). -/
def usizeCast (a : Int) : Nat := (a % 2 ^ 64).toNat

/-- Element types, from `tfpb::types::DataType` (the variants used by the core). -/
inductive DataType where
  | DT_FLOAT
  | DT_DOUBLE
  | DT_INT32
  | DT_INT8
  | DT_UINT8
  | DT_STRING
deriving DecidableEq, Repr

/-- Embedding of `Matrix` from `src/matrix.rs`: a typed N-dimensional array carrying a shape
and a contiguous row-major element buffer.  `f32`/`f64` element buffers are
carried opaquely as bit patterns (`Nat`): no theorem below performs
floating-point arithmetic on them, they are only moved between shapes. -/
inductive Matrix where
  | F32 (shape : List Nat) (buffer : List Nat)
  | F64 (shape : List Nat) (buffer : List Nat)
  | I32 (shape : List Nat) (buffer : List Int)
  | I8 (shape : List Nat) (buffer : List Int)
  | U8 (shape : List Nat) (buffer : List Nat)
  | Str (shape : List Nat) (buffer : List Int)
deriving DecidableEq, Repr

/-- Model of `Matrix::as_f32s` / `take_f32s`: the shape and buffer when the tag is F32. -/
def Matrix.as_f32s : Matrix → Option (List Nat × List Nat)
  | .F32 shape buffer => some (shape, buffer)
  | _ => none

/-- Model of `Matrix::as_i32s` / `take_i32s`: the shape and buffer when the tag is I32. -/
def Matrix.as_i32s : Matrix → Option (List Nat × List Int)
  | .I32 shape buffer => some (shape, buffer)
  | _ => none

/-- Outcome of a fallible Rust computation: `ok` for `Ok`, `err` for an `Err`
return, and `crash` for a panic (unwrap on `None`, out-of-bounds index,
division by zero, explicit `panic!`). -/
inductive TfResult (α : Type) where
  | ok (val : α)
  | err (msg : String)
  | crash (msg : String)
deriving DecidableEq, Repr

/-- Whether the outcome is a success. -/
def TfResult.isOk {α : Type} : TfResult α → Bool
  | .ok _ => true
  | _ => false

/-- Whether the outcome is an `Err` return. -/
def TfResult.isErr {α : Type} : TfResult α → Bool
  | .err _ => true
  | _ => false

/-- Whether the outcome is a panic. -/
def TfResult.isCrash {α : Type} : TfResult α → Bool
  | .crash _ => true
  | _ => false

/-- Rust `?` on an `Option` turned into a `Result` by `ok_or(msg)`. -/
def okOr {α : Type} : Option α → String → TfResult α
  | some a, _ => .ok a
  | none, msg => .err msg

/-- Rust `Option::unwrap()`: panics on `None`. -/
def unwrapOpt {α : Type} : Option α → TfResult α
  | some a => .ok a
  | none => .crash "called Option::unwrap on a None value"

/-- Rust slice indexing `inputs[i]`: panics when out of bounds. -/
def getInput {α : Type} (inputs : List α) (i : Nat) : TfResult α :=
  match inputs, i with
  | [], _ => .crash "index out of bounds"
  | a :: _, 0 => .ok a
  | _ :: rest, n + 1 => getInput rest n

/-- Model of `Vec::insert(i, 1)` on a shape vector: panics when `i > len`. -/
def insertAxis (shape : List Nat) (i : Nat) : TfResult (List Nat) :=
  if i ≤ shape.length then .ok (shape.take i ++ 1 :: shape.drop i)
  else .crash "insertion index out of bounds"

/-- Model of `Vec::remove(i)` on a shape vector: panics when `i ≥ len`. -/
def removeAxis (shape : List Nat) (i : Nat) : TfResult (List Nat) :=
  if i < shape.length then .ok (shape.take i ++ shape.drop (i + 1))
  else .crash "removal index out of bounds"

/-- Stable ascending insertion step, modelling Rust's stable `Vec::sort`. -/
def insertSorted (a : Int) : List Int → List Int
  | [] => [a]
  | b :: l => if a ≤ b then a :: b :: l else b :: insertSorted a l

/-- Stable ascending sort (insertion sort), modelling Rust `Vec::sort()`. -/
def sortAsc (l : List Int) : List Int := l.foldr insertSorted []

namespace Placeholder

/-- Model of `Placeholder::eval` from `src/ops/array/mod.rs`: unconditionally executes
`panic!("Placeholder should not get evaluated")`.  The held `dtype` attribute
and the inputs are ignored. -/
def eval (_dt : DataType) (_inputs : List Matrix) : TfResult (List Matrix) :=
  .crash "Placeholder should not get evaluated"

end Placeholder

namespace Reshape

/-- Wrapping `i32` product (`.product::<i32>()` in release mode). -/
def i32prod (l : List Int) : Int := l.foldl (fun acc a => wrap32 (acc * a)) 1

/-- Model of `Reshape::true_dims`: replaces every `-1` entry with
`input_length as i32 / product of the non-(-1) entries` (truncating `i32`
division, panicking on division by zero or overflow), then casts every entry
`as usize`. -/
def true_dims (dims : List Int) (inputLength : Nat) : TfResult (List Nat) :=
  if dims.contains (-1) then
    let prod := i32prod (dims.filter (fun a => a != -1))
    if prod = 0 then .crash "attempt to divide by zero"
    else if wrap32 (inputLength : Int) = -(2 ^ 31) ∧ prod = -1 then
      .crash "attempt to divide with overflow"
    else
      let q := Int.tdiv (wrap32 (inputLength : Int)) prod
      .ok ((dims.map (fun a => if a = -1 then q else a)).map usizeCast)
  else .ok (dims.map usizeCast)

/-- Model of `Reshape::eval`: destructures two inputs (`args_2!`), takes the data as a
`f32` array and the dims as an `i32` array, resolves the dims via `true_dims`,
and reinterprets the buffer via ndarray `into_shape`, which succeeds exactly
when the product of the new dims equals the element count. -/
def eval (inputs : List Matrix) : TfResult (List Matrix) :=
  match inputs with
  | [inputM, dimsM] =>
    match okOr inputM.as_f32s "Expected a f32 matrix" with
    | .ok input =>
      match okOr dimsM.as_i32s "Expected a i32 matrix" with
      | .ok dims =>
        match true_dims dims.2 input.2.length with
        | .ok newShape =>
          if newShape.prod = input.2.length then .ok [Matrix.F32 newShape input.2]
          else .err "ShapeError: incompatible shapes"
        | .err m => .err m
        | .crash m => .crash m
      | .err m => .err m
      | .crash m => .crash m
    | .err m => .err m
    | .crash m => .crash m
  | _ => .err "Expected 2 args"

/-- Resolution formula of the amended reshape claim, over plain naturals:
every -1 entry becomes the element count divided by the product of the
non-(-1) entries, every other entry is used as-is. -/
def resolvedDims (dims : List Int) (len : Nat) : List Nat :=
  dims.map (fun a => if a = -1
    then len / ((dims.filter (fun b => b != -1)).prod).toNat
    else a.toNat)

end Reshape

namespace ExpandDims

/-- The insertion loop of `ExpandDims::eval`: walks the `dims` entries in the
order they appear in the tensor; a non-negative entry inserts a size-1 axis at
that position (panicking if out of range), a negative entry returns the
`unimplemented` error. -/
def insertLoop (ds : List Int) (shape : List Nat) : TfResult (List Nat) :=
  match ds with
  | [] => .ok shape
  | d :: rest =>
    if 0 ≤ d then
      match insertAxis shape d.toNat with
      | .ok shape' => insertLoop rest shape'
      | .err m => .err m
      | .crash m => .crash m
    else .err "unimplemented ExpandDims with negative parameter"

/-- Model of `ExpandDims::eval`: destructures (data, dims), requires a `f32` data tensor
and an `i32` dims tensor, inserts the axes via `insertLoop`, and rebuilds the
tensor via `into_shape` (success exactly when the products match). -/
def eval (inputs : List Matrix) : TfResult (List Matrix) :=
  match inputs with
  | [dataM, dimsM] =>
    match okOr dataM.as_f32s "Expected a f32 matrix" with
    | .ok data =>
      match okOr dimsM.as_i32s "Expected a i32 matrix" with
      | .ok dims =>
        match insertLoop dims.2 data.1 with
        | .ok shape' =>
          if shape'.prod = data.2.length then .ok [Matrix.F32 shape' data.2]
          else .err "ShapeError: incompatible shapes"
        | .err m => .err m
        | .crash m => .crash m
      | .err m => .err m
      | .crash m => .crash m
    | .err m => .err m
    | .crash m => .crash m
  | _ => .err "Expected 2 args"

/-- The specification's reading of the `ExpandDims` shape computation,
for comparison with `insertLoop`.  Modelled from the spec's words: "Insert a
size-1 axis at every specified (non-negative) position, in ascending order." -/
def specAscendingShape (ds : List Int) (shape : List Nat) : TfResult (List Nat) :=
  insertLoop (sortAsc ds) shape

end ExpandDims

namespace Squeeze

/-- Model of `Squeeze::build`: reads the `squeeze_dims` attribute, sorts it ascending
and reverses it, so the stored dims are in descending order. -/
def build (dims : List Int) : List Int := (sortAsc dims).reverse

/-- Model of `Squeeze::squeeze_shape`: walks the stored dims; a non-negative entry
removes that position from the shape (panicking if out of range), a negative
entry returns the `unimplemented` error. -/
def squeeze_shape (ds : List Int) (shape : List Nat) : TfResult (List Nat) :=
  match ds with
  | [] => .ok shape
  | d :: rest =>
    if 0 ≤ d then
      match removeAxis shape d.toNat with
      | .ok shape' => squeeze_shape rest shape'
      | .err m => .err m
      | .crash m => .crash m
    else .err "unimplemented Squeeze with negative parameter"

/-- Model of `Squeeze::eval`: requires input #0 to be `f32`, squeezes its shape, and
rebuilds the tensor via `into_shape` (success exactly when the products
match). -/
def eval (dims : List Int) (inputs : List Matrix) : TfResult (List Matrix) :=
  match getInput inputs 0 with
  | .ok m =>
    match okOr m.as_f32s "Expect input #0 to be f32" with
    | .ok data =>
      match squeeze_shape dims data.1 with
      | .ok shape' =>
        if shape'.prod = data.2.length then .ok [Matrix.F32 shape' data.2]
        else .err "ShapeError: incompatible shapes"
      | .err m => .err m
      | .crash m => .crash m
    | .err m => .err m
    | .crash m => .crash m
  | .err m => .err m
  | .crash m => .crash m

end Squeeze

namespace Shape

/-- Model of `Shape::eval`: requires input #0 to be `f32` and returns a 1-D `i32`
tensor holding the input's shape, each dimension cast `as i32`. -/
def eval (inputs : List Matrix) : TfResult (List Matrix) :=
  match getInput inputs 0 with
  | .ok m =>
    match okOr m.as_f32s "Expect input #0 to be f32" with
    | .ok data =>
      .ok [Matrix.I32 [data.1.length] (data.1.map (fun s : Nat => wrap32 (s : Int)))]
    | .err m => .err m
    | .crash m => .crash m
  | .err m => .err m
  | .crash m => .crash m

end Shape

/-- Embedding of `AType` from `src/analyser/types.rs`. -/
inductive AType where
  | Any
  | Only (dt : DataType)
deriving DecidableEq, Repr

/-- Embedding of `ADimension` from `src/analyser/types.rs`. -/
inductive ADimension where
  | Any
  | Only (n : Nat)
deriving DecidableEq, Repr

/-- Embedding of `AShape` from `src/analyser/types.rs`: open (known prefix) or closed
(fixed rank) list of abstract dimensions. -/
inductive AShape where
  | Open (dims : List ADimension)
  | Closed (dims : List ADimension)
deriving DecidableEq, Repr

/-- Embedding of `AValue` from `src/analyser/types.rs`. -/
inductive AValue where
  | Any
  | Only (m : Matrix)
deriving DecidableEq, Repr

/-- Embedding of `ATensor` from `src/analyser/types.rs`. -/
structure ATensor where
  datatype : AType
  shape : AShape
  value : AValue
deriving DecidableEq, Repr

/-- Model of `AShape::is_open`. -/
def AShape.is_open : AShape → Bool
  | .Open _ => true
  | .Closed _ => false

/-- Model of `ADimension::is_concrete`. -/
def ADimension.is_concrete : ADimension → Bool
  | .Any => false
  | .Only _ => true

/-- Model of `AShape::concretize`: bails on an open shape; on a closed shape collects
the dimensions, bailing at the first `Any` (the `Result` collect of the
source). -/
def AShape.concretize : AShape → TfResult (List Nat)
  | .Open _ => .err "Impossible to concretize an open shape."
  | .Closed v => go v
where
  /-- The `Result`-collecting traversal of the dimension vector. -/
  go : List ADimension → TfResult (List Nat)
    | [] => .ok []
    | .Any :: _ => .err "Impossible to concretize a shape with an unknown dimension."
    | .Only i :: rest =>
      match go rest with
      | .ok l => .ok (i :: l)
      | .err m => .err m
      | .crash m => .crash m

namespace Shape

/-- Model of `Shape::infer_forward`: bails unless there is exactly one input, then
concretizes the input's shape (propagating its error), and returns a
descriptor that is exactly `DT_INT32`, of closed shape `[rank]`, with value
exactly the shape as a 1-D `i32` tensor. -/
def infer_forward (inputs : List ATensor) : TfResult (List ATensor) :=
  match inputs with
  | [t] =>
    match t.shape.concretize with
    | .ok s =>
      .ok [⟨AType.Only DataType.DT_INT32,
            AShape.Closed [ADimension.Only s.length],
            AValue.Only (Matrix.I32 [s.length] (s.map (fun d : Nat => wrap32 (d : Int))))⟩]
    | .err m => .err m
    | .crash m => .crash m
  | _ => .err "Shape operation only supports one input."

end Shape

namespace ConcatV2

/-- The data-collection loop of `ConcatV2::eval`:
`inputs[0..n].iter().map(|mat| mat.as_f32s().unwrap().view()).collect()`,
panicking at the first non-`f32` input. -/
def collectF32 : List Matrix → TfResult (List (List Nat × List Nat))
  | [] => .ok []
  | m :: rest =>
    match unwrapOpt m.as_f32s with
    | .ok v =>
      match collectF32 rest with
      | .ok vs => .ok (v :: vs)
      | .err m => .err m
      | .crash m => .crash m
    | .err m => .err m
    | .crash m => .crash m

/-- ndarray `stack(Axis(axis), views)` (concatenation along an existing axis):
errors on an empty list, an out-of-range axis, or shapes that disagree off the
concatenation axis; otherwise concatenates the row-major buffers blockwise. -/
def stackConcat (axis : Nat) (mats : List (List Nat × List Nat)) :
    TfResult (List Nat × List Nat) :=
  match mats with
  | [] => .err "ShapeError: unsupported stack of no arrays"
  | m0 :: _ =>
    let sh0 := m0.1
    if axis < sh0.length then
      if mats.all (fun m =>
          m.1.length = sh0.length ∧
          m.1.take axis = sh0.take axis ∧
          m.1.drop (axis + 1) = sh0.drop (axis + 1)) then
        let total := (mats.map (fun m => m.1.getD axis 0)).sum
        let inner := (sh0.drop (axis + 1)).prod
        let outer := (sh0.take axis).prod
        let resShape := sh0.take axis ++ total :: sh0.drop (axis + 1)
        let dataOut := ((List.range outer).map (fun o =>
          (mats.map (fun m =>
            ((m.2.drop (o * (m.1.getD axis 0 * inner))).take
              (m.1.getD axis 0 * inner)))).flatten)).flatten
        .ok (resShape, dataOut)
      else .err "ShapeError: incompatible shapes"
    else .err "ShapeError: axis out of bounds"

/-- Model of `ConcatV2::eval` with attribute `n`: reads the axis from `inputs[n]`
(which must be `i32`; its first element is taken with `unwrap`), collects the
first `n` inputs as `f32` views with `unwrap`, and concatenates them along the
axis. -/
def eval (n : Nat) (inputs : List Matrix) : TfResult (List Matrix) :=
  match getInput inputs n with
  | .ok axisM =>
    match okOr axisM.as_i32s "Expected a i32 matrix" with
    | .ok axisArr =>
      match unwrapOpt axisArr.2.head? with
      | .ok axis =>
        match collectF32 (inputs.take n) with
        | .ok mats =>
          match stackConcat (usizeCast axis) mats with
          | .ok res => .ok [Matrix.F32 res.1 res.2]
          | .err m => .err m
          | .crash m => .crash m
        | .err m => .err m
        | .crash m => .crash m
      | .err m => .err m
      | .crash m => .crash m
    | .err m => .err m
    | .crash m => .crash m
  | .err m => .err m
  | .crash m => .crash m

end ConcatV2

/-- A node of the serialized graph; `OpBuilder::build` consults only its
operator-name field (`pb.get_op()`), so only that field is modelled. -/
structure NodeDef where
  op : String
deriving DecidableEq, Repr

/-- The operator instances (`Box<Op>`) producible by the embedded library. -/
inductive OpBox where
  | concatV2 (n : Nat)
  | expandDims
  | identity
  | placeholder (dt : DataType)
  | reshape
  | shape
  | squeeze (dims : List Int)
  | unimplemented (name : String) (node : NodeDef)
deriving DecidableEq, Repr

/-- Dispatch of `Op::eval` over the embedded operator instances.
`UnimplementedOp::eval` returns `Err(format!("unimplemented operation: {}",
self.0))`. -/
def OpBox.eval : OpBox → List Matrix → TfResult (List Matrix)
  | .concatV2 n => ConcatV2.eval n
  | .expandDims => ExpandDims.eval
  | .identity => fun inputs => .ok inputs
  | .placeholder dt => Placeholder.eval dt
  | .reshape => Reshape.eval
  | .shape => Shape.eval
  | .squeeze ds => Squeeze.eval ds
  | .unimplemented name _ => fun _ => .err ("unimplemented operation: " ++ name)

/-- An operator registry: name → factory, as in `OpRegister`. -/
abbrev OpRegister : Type := List (String × (NodeDef → TfResult OpBox))

/-- Model of `HashMap::get` on the registry. -/
def lookupReg (reg : OpRegister) (name : String) :
    Option (NodeDef → TfResult OpBox) :=
  (reg.find? (fun p => p.1 == name)).map Prod.snd

/-- Model of `OpBuilder::build`: a registered name runs its factory; an unknown name
succeeds with an `UnimplementedOp` stub holding the name and the node. -/
def OpBuilder.build (reg : OpRegister) (pb : NodeDef) : TfResult OpBox :=
  match lookupReg reg pb.op with
  | some builder => builder pb
  | none => .ok (OpBox.unimplemented pb.op pb)

end TfDeploy

namespace TfDeploy

/-! ## Helper lemmas -/

/-- Values already in 32-bit signed range are fixed by `wrap32`. -/
theorem wrap32_eq_self (x : Int) (h0 : 0 ≤ x) (h1 : x < 2 ^ 31) : wrap32 x = x := by
  unfold wrap32; omega

/-- Non-negative values in 64-bit range cast to their `toNat`. -/
theorem usizeCast_eq_toNat (a : Int) (h0 : 0 ≤ a) (h1 : a < 2 ^ 64) :
    usizeCast a = a.toNat := by
  unfold usizeCast; omega

/-- Appending the empty string is the identity. -/
theorem strAppendNil (s : String) : s ++ "" = s := by
  cases s with
  | mk d => exact congrArg String.mk (List.append_nil d)

/-! ## Claim C5 -/

/-- Claim C5 counterexample: evaluating a `Placeholder` on the empty input
list panics with "Placeholder should not get evaluated"; it is neither an
error return nor a success, contradicting the claim that it returns an error
outcome and never aborts. -/
theorem placeholder_eval_crash_not_err :
    Placeholder.eval DataType.DT_FLOAT [] =
      .crash "Placeholder should not get evaluated" ∧
    (Placeholder.eval DataType.DT_FLOAT []).isErr = false ∧
    (Placeholder.eval DataType.DT_FLOAT []).isOk = false := by
  decide

/-- Claim C5 (amended): for every attribute datatype and every input list,
evaluating a `Placeholder` aborts the program with the panic message
"Placeholder should not get evaluated"; it never produces tensors and never
returns an error outcome. -/
theorem placeholder_eval_always_crashes (dt : DataType) (inputs : List Matrix) :
    Placeholder.eval dt inputs = .crash "Placeholder should not get evaluated" ∧
    (Placeholder.eval dt inputs).isErr = false ∧
    (Placeholder.eval dt inputs).isOk = false :=
  ⟨rfl, rfl, rfl⟩

/-! ## Claim C10 -/

/-- Fully concrete dimension vectors are collected successfully. -/
theorem concretize_go_ok_map (l : List Nat) :
    AShape.concretize.go (l.map ADimension.Only) = .ok l := by
  induction l with
  | nil => rfl
  | cons i t ih => simp [AShape.concretize.go, ih]

/-- A successful collection forces the dimension vector to be fully
concrete with exactly the returned values. -/
theorem concretize_go_ok_inv :
    ∀ (v : List ADimension) (l : List Nat),
      AShape.concretize.go v = .ok l → v = l.map ADimension.Only := by
  intro v
  induction v with
  | nil =>
    intro l h
    simp only [AShape.concretize.go] at h
    cases h
    rfl
  | cons d t ih =>
    cases d with
    | Any => intro l h; simp [AShape.concretize.go] at h
    | Only i =>
      intro l h
      cases htr : AShape.concretize.go t with
      | ok lr =>
        rw [AShape.concretize.go, htr] at h
        cases h
        simp [ih lr htr]
      | err m => rw [AShape.concretize.go, htr] at h; cases h
      | crash m => rw [AShape.concretize.go, htr] at h; cases h

/-- The collection never panics. -/
theorem concretize_go_not_crash :
    ∀ v : List ADimension, (AShape.concretize.go v).isCrash = false := by
  intro v
  induction v with
  | nil => rfl
  | cons d t ih =>
    cases d with
    | Any => rfl
    | Only i =>
      rw [AShape.concretize.go]
      cases htr : AShape.concretize.go t with
      | ok lr => rfl
      | err m => rfl
      | crash m => rw [htr] at ih; cases ih

/-- Claim C10: `AShape::concretize` never panics, and it succeeds with
result `l` exactly when the abstract shape is `Closed` with every dimension
`Only`, the returned values being the dimension values in order; on an `Open`
shape or a shape containing an `Any` dimension it returns an error. -/
theorem ashape_concretize_ok_iff_closed_concrete (s : AShape) :
    (s.concretize).isCrash = false ∧
    ∀ l : List Nat,
      (s.concretize = .ok l ↔ s = AShape.Closed (l.map ADimension.Only)) := by
  cases s with
  | Open v =>
    refine ⟨rfl, fun l => ⟨fun h => ?_, fun h => ?_⟩⟩
    · simp [AShape.concretize] at h
    · cases h
  | Closed v =>
    refine ⟨concretize_go_not_crash v, fun l => ⟨fun h => ?_, fun h => ?_⟩⟩
    · rw [concretize_go_ok_inv v l h]
    · cases h; exact concretize_go_ok_map l

/-! ## Claim C3 -/

/-- Claim C3 counterexample: on an input descriptor whose shape component is
not concrete (the open empty shape), `Shape::infer_forward` fails with the
concretization error rather than succeeding with value `Any`, contradicting
the claim that the inference still succeeds in that case. -/
theorem shape_infer_forward_fails_on_open_shape :
    Shape.infer_forward [⟨AType.Any, AShape.Open [], AValue.Any⟩] =
      .err "Impossible to concretize an open shape." ∧
    (Shape.infer_forward [⟨AType.Any, AShape.Open [], AValue.Any⟩]).isOk = false := by
  decide

/-- Claim C3 (amended): `Shape::infer_forward` on a single input descriptor
succeeds exactly when the input's shape component concretizes; in that case
the output descriptor is exactly a 1-D `DT_INT32` tensor whose single
dimension is the input's rank and whose value component is known (`Only`),
holding the shape as an `i32` vector; when the shape does not concretize the
inference fails with the concretization error instead of succeeding with
value `Any`. -/
theorem shape_infer_forward_requires_concrete_shape (t : ATensor) :
    (∀ s, t.shape.concretize = .ok s →
      Shape.infer_forward [t] = .ok [⟨AType.Only DataType.DT_INT32,
        AShape.Closed [ADimension.Only s.length],
        AValue.Only (Matrix.I32 [s.length] (s.map (fun d : Nat => wrap32 (d : Int))))⟩]) ∧
    (∀ m, t.shape.concretize = .err m → Shape.infer_forward [t] = .err m) := by
  constructor
  · intro s h; simp [Shape.infer_forward, h]
  · intro m h; simp [Shape.infer_forward, h]

/-- Claim C3 witness: the amended theorem applied to a concrete closed shape
and to the open empty shape. -/
theorem shape_infer_forward_requires_concrete_shape_witness :
    Shape.infer_forward [⟨AType.Only DataType.DT_FLOAT,
        AShape.Closed [ADimension.Only 2, ADimension.Only 3], AValue.Any⟩] =
      .ok [⟨AType.Only DataType.DT_INT32, AShape.Closed [ADimension.Only 2],
        AValue.Only (Matrix.I32 [2] [2, 3])⟩] ∧
    Shape.infer_forward [⟨AType.Only DataType.DT_FLOAT, AShape.Open [],
        AValue.Any⟩] =
      .err "Impossible to concretize an open shape." := by
  constructor
  · exact ((shape_infer_forward_requires_concrete_shape _).1 [2, 3]
      (by decide)).trans (by decide)
  · exact (shape_infer_forward_requires_concrete_shape _).2
      "Impossible to concretize an open shape." (by decide)

/-! ## Claim C6 -/

/-- Claim C6: building a node whose operator name is not present in the
registry succeeds, yielding the `UnimplementedOp` stub carrying the name, and
evaluating that stub on any input list returns an error whose message
contains the operator name. -/
theorem unknown_op_builds_unimplemented_stub (reg : OpRegister) (pb : NodeDef)
    (h : lookupReg reg pb.op = none) :
    OpBuilder.build reg pb = .ok (OpBox.unimplemented pb.op pb) ∧
    ∀ inputs : List Matrix,
      OpBox.eval (OpBox.unimplemented pb.op pb) inputs =
        .err ("unimplemented operation: " ++ pb.op) ∧
      ∃ pre suf : String,
        "unimplemented operation: " ++ pb.op = pre ++ pb.op ++ suf := by
  refine ⟨?_, fun inputs => ⟨rfl, "unimplemented operation: ", "", ?_⟩⟩
  · simp [OpBuilder.build, h]
  · exact (strAppendNil _).symm

/-- Claim C6 witness: the empty registry does not know "GatherV2", so the
build yields the stub and its evaluation errors with the name in the
message. -/
theorem unknown_op_builds_unimplemented_stub_witness :
    OpBuilder.build [] ⟨"GatherV2"⟩ =
      .ok (OpBox.unimplemented "GatherV2" ⟨"GatherV2"⟩) ∧
    OpBox.eval (OpBox.unimplemented "GatherV2" ⟨"GatherV2"⟩) [] =
      .err "unimplemented operation: GatherV2" := by
  have h := unknown_op_builds_unimplemented_stub [] ⟨"GatherV2"⟩ rfl
  exact ⟨h.1, ((h.2 []).1).trans (by decide)⟩

/-! ## Claim C7 -/

/-- Claim C7: for every tensor accepted by `Shape::eval` (a 32-bit float
tensor in input slot 0, with dimensions in `i32` range), the result is a
single 1-D integer tensor whose element list is exactly the input's shape:
its length is the input's rank and its i-th element is the input's i-th
dimension. -/
theorem shape_eval_returns_input_shape (shape buf : List Nat)
    (rest : List Matrix) (h : ∀ d ∈ shape, d < 2 ^ 31) :
    Shape.eval (Matrix.F32 shape buf :: rest) =
      .ok [Matrix.I32 [shape.length] (shape.map (fun d : Nat => (d : Int)))] := by
  have hm : shape.map (fun d : Nat => wrap32 (d : Int)) =
      shape.map (fun d : Nat => (d : Int)) :=
    List.map_congr_left (fun d hd =>
      wrap32_eq_self _ (Int.natCast_nonneg d) (by exact_mod_cast h d hd))
  have key : Shape.eval (Matrix.F32 shape buf :: rest) = TfResult.ok
      [Matrix.I32 [shape.length] (shape.map (fun d : Nat => wrap32 (d : Int)))] := rfl
  rw [key, hm]

/-- Claim C7 witness: the shape of a 2×3 tensor is returned as the 1-D
integer tensor [2, 3]. -/
theorem shape_eval_returns_input_shape_witness :
    Shape.eval [Matrix.F32 [2, 3] [0, 0, 0, 0, 0, 0]] =
      .ok [Matrix.I32 [2] [2, 3]] :=
  (shape_eval_returns_input_shape [2, 3] [0, 0, 0, 0, 0, 0] []
    (by decide)).trans (by decide)

/-! ## Claim C8 -/

/-- Inserting size-1 axes preserves the shape product. -/
theorem insertLoop_prod :
    ∀ (ds : List Int) (shape s' : List Nat),
      ExpandDims.insertLoop ds shape = .ok s' → s'.prod = shape.prod := by
  intro ds
  induction ds with
  | nil =>
    intro shape s' h
    cases h
    rfl
  | cons d t ih =>
    intro shape s' h
    rw [ExpandDims.insertLoop] at h
    split at h
    · rcases hax : insertAxis shape d.toNat with s1 | m | m
      · rw [hax] at h
        change ExpandDims.insertLoop t s1 = TfResult.ok s' at h
        have h1 : s1.prod = shape.prod := by
          rw [insertAxis] at hax
          split at hax
          · cases hax
            rw [List.prod_append, List.prod_cons, one_mul,
              ← List.prod_append, List.take_append_drop]
          · cases hax
        rw [ih s1 s' h, h1]
      · rw [hax] at h
        change TfResult.err m = TfResult.ok s' at h
        cases h
      · rw [hax] at h
        change TfResult.crash m = TfResult.ok s' at h
        cases h
    · cases h

/-- Claim C8 counterexample: on a 2×3 tensor with dims [2, 0] (all
non-negative), `ExpandDims::eval` inserts the axes in the order given in the
dims tensor, producing shape [1, 2, 3, 1], while the claimed
ascending-order insertion (`specAscendingShape`) produces [1, 2, 1, 3]. -/
theorem expanddims_eval_order_differs_from_ascending :
    ExpandDims.eval [Matrix.F32 [2, 3] [0, 0, 0, 0, 0, 0],
        Matrix.I32 [2] [2, 0]] =
      .ok [Matrix.F32 [1, 2, 3, 1] [0, 0, 0, 0, 0, 0]] ∧
    ExpandDims.specAscendingShape [2, 0] [2, 3] = .ok [1, 2, 1, 3] ∧
    ([1, 2, 3, 1] : List Nat) ≠ [1, 2, 1, 3] := by
  decide

/-- Claim C8 (amended): for every `ExpandDims` evaluation over a `f32` data
tensor and an `i32` dims tensor whose entries are all non-negative, whenever
walking the dims entries in the order they appear in the tensor (not in
ascending order) inserts a size-1 axis at each position without going out of
range (`insertLoop` succeeds), the output is that shape over the unchanged
element buffer. -/
theorem expanddims_eval_inserts_in_given_order (shape buf dshape : List Nat)
    (ds : List Int) (s' : List Nat)
    (_hnn : ∀ d ∈ ds, 0 ≤ d)
    (hloop : ExpandDims.insertLoop ds shape = .ok s')
    (hbuf : shape.prod = buf.length) :
    ExpandDims.eval [Matrix.F32 shape buf, Matrix.I32 dshape ds] =
      .ok [Matrix.F32 s' buf] := by
  have hp : s'.prod = shape.prod := insertLoop_prod ds shape s' hloop
  have key : ExpandDims.eval [Matrix.F32 shape buf, Matrix.I32 dshape ds] =
      (match ExpandDims.insertLoop ds shape with
       | .ok shape' =>
         if shape'.prod = buf.length then .ok [Matrix.F32 shape' buf]
         else .err "ShapeError: incompatible shapes"
       | .err m => .err m
       | .crash m => .crash m) := rfl
  rw [key, hloop]
  show (if s'.prod = buf.length then TfResult.ok [Matrix.F32 s' buf]
    else .err "ShapeError: incompatible shapes") = _
  rw [if_pos (hp.trans hbuf)]

/-- Claim C8 witness: the amended theorem applied to the 2×3 tensor with
dims [2, 0]. -/
theorem expanddims_eval_inserts_in_given_order_witness :
    ExpandDims.eval [Matrix.F32 [2, 3] [0, 0, 0, 0, 0, 0],
        Matrix.I32 [2] [2, 0]] =
      .ok [Matrix.F32 [1, 2, 3, 1] [0, 0, 0, 0, 0, 0]] :=
  expanddims_eval_inserts_in_given_order [2, 3] [0, 0, 0, 0, 0, 0] [2]
    [2, 0] [1, 2, 3, 1] (by decide) (by decide) (by decide)

/-! ## Claim C9 -/

/-- Walking a concatenation of squeeze dims processes the first part, then
feeds its result to the second part. -/
theorem squeeze_shape_append (pre rest : List Int) :
    ∀ shape : List Nat,
      Squeeze.squeeze_shape (pre ++ rest) shape =
        (match Squeeze.squeeze_shape pre shape with
         | .ok s1 => Squeeze.squeeze_shape rest s1
         | .err m => .err m
         | .crash m => .crash m) := by
  induction pre with
  | nil => intro shape; rfl
  | cons d t ih =>
    intro shape
    show Squeeze.squeeze_shape (d :: (t ++ rest)) shape = _
    rw [Squeeze.squeeze_shape, Squeeze.squeeze_shape]
    split
    · rcases removeAxis shape d.toNat with s1 | m | m
      · exact ih s1
      · rfl
      · rfl
    · rfl

/-- Walking a concatenation of ExpandDims dims processes the first part,
then feeds its result to the second part. -/
theorem insertLoop_append (pre rest : List Int) :
    ∀ shape : List Nat,
      ExpandDims.insertLoop (pre ++ rest) shape =
        (match ExpandDims.insertLoop pre shape with
         | .ok s1 => ExpandDims.insertLoop rest s1
         | .err m => .err m
         | .crash m => .crash m) := by
  induction pre with
  | nil => intro shape; rfl
  | cons d t ih =>
    intro shape
    show ExpandDims.insertLoop (d :: (t ++ rest)) shape = _
    rw [ExpandDims.insertLoop, ExpandDims.insertLoop]
    split
    · rcases insertAxis shape d.toNat with s1 | m | m
      · exact ih s1
      · rfl
      · rfl
    · rfl

/-- Claim C9 counterexample: a `Squeeze` whose `squeeze_dims` attribute is
[-1, 5] (which the builder stores in descending order as [5, -1]) applied to
a rank-1 `f32` tensor aborts with an out-of-bounds removal panic before the
negative entry is ever examined; the evaluation does not fail with an
`UnsupportedAttribute` error as the claim states. -/
theorem squeeze_negative_axis_can_crash_first :
    Squeeze.eval (Squeeze.build [-1, 5]) [Matrix.F32 [1] [0]] =
      .crash "removal index out of bounds" ∧
    (Squeeze.eval (Squeeze.build [-1, 5]) [Matrix.F32 [1] [0]]).isErr = false := by
  decide

/-- Claim C9 (amended): a negative entry in `Squeeze`'s stored squeeze dims
or in `ExpandDims`'s dims input makes the evaluation fail with the
`UnsupportedAttribute` ("unimplemented ... with negative parameter") error,
provided every entry processed before the first negative one removes
(respectively inserts) an in-range axis; an out-of-range non-negative entry
processed earlier aborts the program instead. -/
theorem negative_axis_error_after_valid_prefix :
    (∀ (shape buf : List Nat) (pre : List Int) (d : Int) (rest : List Int)
       (s1 : List Nat), d < 0 → Squeeze.squeeze_shape pre shape = .ok s1 →
      Squeeze.eval (pre ++ d :: rest) [Matrix.F32 shape buf] =
        .err "unimplemented Squeeze with negative parameter") ∧
    (∀ (shape buf dshape : List Nat) (pre : List Int) (d : Int)
       (rest : List Int) (s1 : List Nat),
      d < 0 → ExpandDims.insertLoop pre shape = .ok s1 →
      ExpandDims.eval [Matrix.F32 shape buf,
          Matrix.I32 dshape (pre ++ d :: rest)] =
        .err "unimplemented ExpandDims with negative parameter") := by
  constructor
  · intro shape buf pre d rest s1 hd hpre
    have hs : Squeeze.squeeze_shape (pre ++ d :: rest) shape =
        .err "unimplemented Squeeze with negative parameter" := by
      rw [squeeze_shape_append, hpre]
      show Squeeze.squeeze_shape (d :: rest) s1 = _
      rw [Squeeze.squeeze_shape, if_neg (by omega)]
    have key : Squeeze.eval (pre ++ d :: rest) [Matrix.F32 shape buf] =
        (match Squeeze.squeeze_shape (pre ++ d :: rest) shape with
         | .ok shape' =>
           if shape'.prod = buf.length then .ok [Matrix.F32 shape' buf]
           else .err "ShapeError: incompatible shapes"
         | .err m => .err m
         | .crash m => .crash m) := rfl
    rw [key, hs]
  · intro shape buf dshape pre d rest s1 hd hpre
    have hs : ExpandDims.insertLoop (pre ++ d :: rest) shape =
        .err "unimplemented ExpandDims with negative parameter" := by
      rw [insertLoop_append, hpre]
      show ExpandDims.insertLoop (d :: rest) s1 = _
      rw [ExpandDims.insertLoop, if_neg (by omega)]
    have key : ExpandDims.eval [Matrix.F32 shape buf,
        Matrix.I32 dshape (pre ++ d :: rest)] =
        (match ExpandDims.insertLoop (pre ++ d :: rest) shape with
         | .ok shape' =>
           if shape'.prod = buf.length then .ok [Matrix.F32 shape' buf]
           else .err "ShapeError: incompatible shapes"
         | .err m => .err m
         | .crash m => .crash m) := rfl
    rw [key, hs]

/-- Claim C9 witness: the amended theorem applied to a `Squeeze` with dims
[-1] on a rank-1 tensor and to an `ExpandDims` with dims [0, -1] on a scalar
tensor (the in-range prefix [0] succeeds before the negative entry errors). -/
theorem negative_axis_error_after_valid_prefix_witness :
    Squeeze.eval [-1] [Matrix.F32 [1] [0]] =
      .err "unimplemented Squeeze with negative parameter" ∧
    ExpandDims.eval [Matrix.F32 [] [0], Matrix.I32 [2] [0, -1]] =
      .err "unimplemented ExpandDims with negative parameter" := by
  constructor
  · exact negative_axis_error_after_valid_prefix.1 [1] [0] [] (-1) [] [1]
      (by decide) (by decide)
  · exact negative_axis_error_after_valid_prefix.2 [] [0] [2] [0] (-1) [] [1]
      (by decide) (by decide)

/-! ## Claim C4 -/

/-- Hitting a non-`f32` matrix while collecting the data views panics
(`as_f32s().unwrap()`), whatever comes after it. -/
theorem collectF32_crash (pre : List Matrix) (m : Matrix) (post : List Matrix)
    (hpre : ∀ x ∈ pre, (Matrix.as_f32s x).isSome = true)
    (hm : m.as_f32s = none) :
    ConcatV2.collectF32 (pre ++ m :: post) =
      .crash "called Option::unwrap on a None value" := by
  induction pre with
  | nil => simp [ConcatV2.collectF32, unwrapOpt, hm]
  | cons x t ih =>
    obtain ⟨v, hv⟩ := Option.isSome_iff_exists.mp (hpre x (by simp))
    have ht := ih (fun y hy => hpre y (by simp [hy]))
    simp [ConcatV2.collectF32, unwrapOpt, hv, ht]

/-- Claim C4 counterexample: `ConcatV2::eval` with a non-`f32` data input (an
`i32` tensor) and a well-formed `i32` axis input aborts the program with an
unwrap panic; it neither succeeds nor returns an error outcome, contradicting
the claim that a wrong data element type yields a `TypeMismatch` error. -/
theorem concatv2_eval_crashes_on_non_f32_data :
    ConcatV2.eval 1 [Matrix.I32 [1] [7], Matrix.I32 [1] [0]] =
      .crash "called Option::unwrap on a None value" ∧
    (ConcatV2.eval 1 [Matrix.I32 [1] [7], Matrix.I32 [1] [0]]).isErr = false ∧
    (ConcatV2.eval 1 [Matrix.I32 [1] [7], Matrix.I32 [1] [0]]).isOk = false := by
  decide

/-- Claim C4 (amended): `ConcatV2::eval` returns the "Expected a i32 matrix"
error when the axis input (input number `n`) is not a 32-bit integer tensor;
but when the axis input is a well-formed `i32` tensor and one of the first
`n` data inputs is not a 32-bit float tensor (every earlier one being `f32`),
the evaluation aborts with an unwrap panic instead of returning an error. -/
theorem concatv2_eval_type_check_split :
    (∀ (n : Nat) (inputs : List Matrix) (am : Matrix),
      getInput inputs n = .ok am → am.as_i32s = none →
      ConcatV2.eval n inputs = .err "Expected a i32 matrix") ∧
    (∀ (n : Nat) (inputs : List Matrix) (am : Matrix) (ash : List Nat)
       (a : Int) (abuf : List Int) (pre : List Matrix) (m : Matrix)
       (post : List Matrix),
      getInput inputs n = .ok am → am.as_i32s = some (ash, a :: abuf) →
      inputs.take n = pre ++ m :: post →
      (∀ x ∈ pre, (Matrix.as_f32s x).isSome = true) → m.as_f32s = none →
      ConcatV2.eval n inputs = .crash "called Option::unwrap on a None value") := by
  constructor
  · intro n inputs am h1 h2
    simp [ConcatV2.eval, h1, h2, okOr]
  · intro n inputs am ash a abuf pre m post h1 h2 htake hpre hm
    simp [ConcatV2.eval, h1, h2, okOr, unwrapOpt, htake,
      collectF32_crash pre m post hpre hm]

/-- Claim C4 witness: the amended theorem applied to an eval whose axis input
is a `u8` tensor (error return) and to an eval whose data input is an `i32`
tensor (panic). -/
theorem concatv2_eval_type_check_split_witness :
    ConcatV2.eval 1 [Matrix.F32 [1] [7], Matrix.U8 [1] [0]] =
      .err "Expected a i32 matrix" ∧
    ConcatV2.eval 1 [Matrix.I32 [1] [7], Matrix.I32 [1] [0]] =
      .crash "called Option::unwrap on a None value" := by
  constructor
  · exact concatv2_eval_type_check_split.1 1
      [Matrix.F32 [1] [7], Matrix.U8 [1] [0]] (Matrix.U8 [1] [0]) rfl rfl
  · exact concatv2_eval_type_check_split.2 1
      [Matrix.I32 [1] [7], Matrix.I32 [1] [0]] (Matrix.I32 [1] [0]) [1] 0 []
      [] (Matrix.I32 [1] [7]) [] rfl rfl rfl (by simp) rfl

/-! ## Claim C2 -/

/-- Products of lists of integers that are all at least one are at least
one. -/
theorem int_prod_one_le (l : List Int) (h : ∀ d ∈ l, 1 ≤ d) : 1 ≤ l.prod := by
  induction l with
  | nil => simp
  | cons d t ih =>
    have hd := h d (by simp)
    have ht := ih (fun x hx => h x (by simp [hx]))
    have := mul_le_mul hd ht (by norm_num) (le_trans zero_le_one hd)
    rw [List.prod_cons]
    linarith

/-- The wrapping `i32` fold computes the exact product as long as every entry
is at least one and the running value stays below `2^31`. -/
theorem i32prod_foldl_eq :
    ∀ (l : List Int) (acc : Int), (∀ d ∈ l, 1 ≤ d) → 0 ≤ acc →
      acc * l.prod < 2 ^ 31 →
      List.foldl (fun a b => wrap32 (a * b)) acc l = acc * l.prod := by
  intro l
  induction l with
  | nil => intro acc _ _ _; simp
  | cons d t ih =>
    intro acc h1 hacc hb
    have hd : 1 ≤ d := h1 d (by simp)
    have ht : ∀ x ∈ t, 1 ≤ x := fun x hx => h1 x (by simp [hx])
    have htp : 1 ≤ t.prod := int_prod_one_le t ht
    have hnn : 0 ≤ acc * d := mul_nonneg hacc (by linarith)
    have hassoc : acc * d * t.prod = acc * (d :: t).prod := by
      rw [List.prod_cons, mul_assoc]
    have hb' : acc * d * t.prod < 2 ^ 31 := by rw [hassoc]; exact hb
    have hlt : acc * d < 2 ^ 31 :=
      lt_of_le_of_lt (le_mul_of_one_le_right hnn htp) hb'
    rw [List.foldl_cons, wrap32_eq_self (acc * d) hnn hlt,
      ih (acc * d) ht hnn hb', hassoc]

/-- Claim C2 counterexample: `Reshape::eval` over a one-element tensor with
dims [-1, -1] (two -1 entries) does not fail with `UnsupportedAttribute` as
the claim states: each -1 is resolved to the element count divided by the
product of the remaining entries (here 1) and evaluation succeeds with shape
[1, 1]. -/
theorem reshape_eval_double_minus_one_succeeds :
    Reshape.eval [Matrix.F32 [1] [0], Matrix.I32 [2] [-1, -1]] =
      .ok [Matrix.F32 [1, 1] [0]] ∧
    (Reshape.eval [Matrix.F32 [1] [0], Matrix.I32 [2] [-1, -1]]).isErr =
      false := by
  decide

set_option maxRecDepth 8192

/-- Claim C2 (amended): for every `Reshape` evaluation over a `f32` input
tensor and an `i32` dims tensor (entries at least -1 and within `i32` range,
products within range, the divisor positive when a -1 occurs), every -1 entry
(one or more - more than one is not rejected with `UnsupportedAttribute`) is
resolved to the element count of the input divided by the product of the
non-(-1) entries, and the evaluation succeeds with the resolved shape exactly
when the product of the resolved dims equals the input's element count,
failing with the shape-mismatch error otherwise. -/
theorem reshape_eval_resolves_every_minus_one
    (shape buf dshape : List Nat) (dims : List Int)
    (hentries : ∀ d ∈ dims, -1 ≤ d ∧ d < 2 ^ 31)
    (hlen : buf.length < 2 ^ 31)
    (hprod : dims.contains (-1) = true →
      0 < (dims.filter (fun b => b != -1)).prod ∧
        (dims.filter (fun b => b != -1)).prod < 2 ^ 31) :
    Reshape.eval [Matrix.F32 shape buf, Matrix.I32 dshape dims] =
      (if (Reshape.resolvedDims dims buf.length).prod = buf.length
       then .ok [Matrix.F32 (Reshape.resolvedDims dims buf.length) buf]
       else .err "ShapeError: incompatible shapes") := by
  have htd : Reshape.true_dims dims buf.length =
      .ok (Reshape.resolvedDims dims buf.length) := by
    by_cases hmem : (-1 : Int) ∈ dims
    · have hc : dims.contains (-1) = true := by simpa using hmem
      obtain ⟨hP0, hP31⟩ := hprod hc
      have h1 : ∀ x ∈ dims.filter (fun b => b != -1), 1 ≤ x := by
        intro x hx
        have h2 := List.mem_filter.mp hx
        have hge := (hentries x h2.1).1
        rcases lt_or_le x 1 with hlt | hle
        · have hx0 : x = 0 := by
            have := bne_iff_ne.mp h2.2
            omega
          rw [hx0] at hx
          have := List.prod_eq_zero hx
          omega
        · exact hle
      have hfold : Reshape.i32prod (dims.filter (fun b => b != -1)) =
          (dims.filter (fun b => b != -1)).prod := by
        rw [Reshape.i32prod,
          i32prod_foldl_eq _ 1 h1 (by norm_num) (by rw [one_mul]; exact hP31),
          one_mul]
      have hwL : wrap32 ((buf.length : Nat) : Int) = (buf.length : Int) :=
        wrap32_eq_self _ (Int.natCast_nonneg _) (by exact_mod_cast hlen)
      rw [Reshape.true_dims]
      simp only [hc, if_true, hfold]
      rw [if_neg (by omega), if_neg (by rw [hwL]; intro hand; omega), hwL]
      refine congrArg TfResult.ok ?_
      rw [List.map_map, Reshape.resolvedDims]
      apply List.map_congr_left
      intro a ha
      obtain ⟨k, hk⟩ :
          ∃ k : Nat, (dims.filter (fun b => b != -1)).prod = (k : Int) :=
        ⟨(dims.filter (fun b => b != -1)).prod.toNat,
          (Int.toNat_of_nonneg hP0.le).symm⟩
      by_cases hae : a = -1
      · rw [hae]
        rw [Function.comp_apply, if_pos rfl, if_pos rfl, hk, Int.toNat_natCast]
        rw [show ((buf.length : Nat) : Int).tdiv ((k : Nat) : Int) =
          ((buf.length / k : Nat) : Int) from rfl]
        rw [usizeCast_eq_toNat _ (Int.natCast_nonneg _) (by
          have hle : buf.length / k ≤ buf.length := Nat.div_le_self _ _
          have hcast : ((buf.length / k : Nat) : Int) ≤ (buf.length : Int) := by
            exact_mod_cast hle
          omega)]
        rw [Int.toNat_natCast]
      · have h0a : 0 ≤ a := by
          have := (hentries a ha).1
          omega
        rw [Function.comp_apply, if_neg hae, if_neg hae]
        exact usizeCast_eq_toNat a h0a (by have := (hentries a ha).2; omega)
    · have hc : dims.contains (-1) = false := by simpa using hmem
      rw [Reshape.true_dims]
      rw [if_neg (by simpa using hmem)]
      refine congrArg TfResult.ok ?_
      rw [Reshape.resolvedDims]
      apply List.map_congr_left
      intro a ha
      have hane : a ≠ -1 := fun hae => hmem (hae ▸ ha)
      have h0a : 0 ≤ a := by
        have := (hentries a ha).1
        omega
      rw [if_neg hane]
      exact usizeCast_eq_toNat a h0a (by have := (hentries a ha).2; omega)
  have key : Reshape.eval [Matrix.F32 shape buf, Matrix.I32 dshape dims] =
      (match Reshape.true_dims dims buf.length with
       | .ok newShape =>
         if newShape.prod = buf.length then .ok [Matrix.F32 newShape buf]
         else .err "ShapeError: incompatible shapes"
       | .err m => .err m
       | .crash m => .crash m) := rfl
  rw [key, htd]

/-- Claim C2 witness: the amended theorem applied to a 6-element tensor with
dims [2, -1]; the -1 resolves to 6 / 2 = 3 and the reshape succeeds. -/
theorem reshape_eval_resolves_every_minus_one_witness :
    Reshape.eval [Matrix.F32 [6] [0, 0, 0, 0, 0, 0], Matrix.I32 [2] [2, -1]] =
      .ok [Matrix.F32 [2, 3] [0, 0, 0, 0, 0, 0]] := by
  have h := reshape_eval_resolves_every_minus_one [6] [0, 0, 0, 0, 0, 0] [2]
    [2, -1] (by decide) (by decide) (by decide)
  exact h.trans (by decide)

end TfDeploy
